import Mathlib

/-!
Verification of the arcade-racer core (Vehicle dynamics, tire model, route
graph/sampler) against its natural-language specification.

Numbers are modeled by `ℚ`.  The JavaScript `Math` transcendental functions
(`sin`, `cos`, `tan`, `atan2`, `hypot`, `sqrt`) and the constant `Math.PI`
are not algebraic over `ℚ`; they are abstracted as a parameter record
`MathOps` passed to every definition that uses them, so that theorems
quantify over every possible implementation of these functions and concrete
evaluations instantiate them explicitly.  `Math.max` / `Math.min` /
`Math.abs` / `Math.floor` are exact on rationals and are modeled directly
by the computable functions `jmax` / `jmin` / `jabs` / `Int.floor`.
-/

/-- `Math.min` on rationals (computable, kernel-reducible). -/
def jmin (a b : ℚ) : ℚ := if a ≤ b then a else b

/-- `Math.max` on rationals (computable, kernel-reducible). -/
def jmax (a b : ℚ) : ℚ := if a ≤ b then b else a

/-- `Math.abs` on rationals (computable, kernel-reducible). -/
def jabs (a : ℚ) : ℚ := if a < 0 then -a else a

/-- Abstraction of the JavaScript `Math` transcendental functions used by the
vehicle dynamics and the route sampler. -/
structure MathOps where
  sin : ℚ → ℚ
  cos : ℚ → ℚ
  tan : ℚ → ℚ
  atan2 : ℚ → ℚ → ℚ
  hypot : ℚ → ℚ → ℚ
  sqrt : ℚ → ℚ
  pi : ℚ

/-- A trivial instantiation of `MathOps` used for concrete evaluations. -/
def zeroOps : MathOps :=
  { sin := fun _ => 0, cos := fun _ => 0, tan := fun _ => 0,
    atan2 := fun _ _ => 0, hypot := fun _ _ => 0, sqrt := fun _ => 0, pi := 0 }

/-! ## Terrain table (src/data/terrains.ts) -/

/-- `TerrainType` from terrains.ts. -/
inductive TerrainType where
  | asphalt | wet | dirt | sand | grass
deriving DecidableEq, Repr

/-- `TerrainInfo` from terrains.ts (the `id` field is the key itself). -/
structure TerrainInfo where
  label : String
  friction : ℚ
  rollingResistance : ℚ
  dustColor : ℕ
deriving DecidableEq, Repr

/-- The `TERRAINS` table from terrains.ts. -/
def TERRAINS : TerrainType → TerrainInfo
  | .asphalt => { label := "Asphalt", friction := 1.0, rollingResistance := 0.018, dustColor := 0x1b1b1b }
  | .wet => { label := "Wet Asphalt", friction := 0.78, rollingResistance := 0.022, dustColor := 0x222f3a }
  | .dirt => { label := "Dirt", friction := 0.7, rollingResistance := 0.03, dustColor := 0x7a4b2a }
  | .sand => { label := "Sand", friction := 0.6, rollingResistance := 0.04, dustColor := 0xb08a5a }
  | .grass => { label := "Grass", friction := 0.65, rollingResistance := 0.035, dustColor := 0x2f5f2c }

/-! ## Tire model (src/physics/TireModel.ts) -/

/-- `TireCompound` from TireModel.ts. -/
inductive TireCompound where
  | street | sport | semi
deriving DecidableEq, Repr

/-- `TireSetup` from TireModel.ts. -/
structure TireSetup where
  compound : TireCompound
  pressureFrontPsi : ℚ
  pressureRearPsi : ℚ
deriving DecidableEq, Repr

/-- `TireState` from TireModel.ts. -/
structure TireState where
  slipAngle : ℚ
  slipRatio : ℚ
  combinedSlip : ℚ
  gripFactor : ℚ
deriving DecidableEq, Repr

/-- `COMPOUND_GRIP` from TireModel.ts. -/
def COMPOUND_GRIP : TireCompound → ℚ
  | .street => 0.95
  | .sport => 1.05
  | .semi => 1.15

/-- `COMPOUND_WET_PENALTY` from TireModel.ts. -/
def COMPOUND_WET_PENALTY : TireCompound → ℚ
  | .street => 0.85
  | .sport => 0.78
  | .semi => 0.7

/-- `pressureGripFactor` from TireModel.ts:
`delta = Math.min(6, Math.max(-6, psi - 33)); return 1 - Math.abs(delta) * 0.012`. -/
def pressureGripFactor (psi : ℚ) : ℚ :=
  let delta := jmin 6 (jmax (-6) (psi - 33))
  1 - jabs delta * 0.012

/-- `tireGripForTerrain` from TireModel.ts. -/
def tireGripForTerrain (setup : TireSetup) (terrain : TerrainType) (isFront : Bool) : ℚ :=
  let base := (TERRAINS terrain).friction
  let compoundGrip := COMPOUND_GRIP setup.compound
  let wetPenalty := if terrain = .wet then COMPOUND_WET_PENALTY setup.compound else 1
  let psi := if isFront then setup.pressureFrontPsi else setup.pressureRearPsi
  base * compoundGrip * wetPenalty * pressureGripFactor psi

/-- `frictionCircle` from TireModel.ts; `Math.sqrt` is passed in explicitly. -/
def frictionCircle (sqrt : ℚ → ℚ) (longitudinal lateral : ℚ) : ℚ :=
  let slip := jmin 1 (sqrt (longitudinal * longitudinal + lateral * lateral))
  1 - slip * 0.4

/-! ## Car data (src/data/cars.ts) -/

/-- The `suspension` record shared by `CarSpec` and `VehicleTuning`. -/
structure Suspension where
  rideHeight : ℚ
  springRate : ℚ
  damping : ℚ
  antiRoll : ℚ
deriving DecidableEq, Repr

/-- `CarSpec` from cars.ts. -/
structure CarSpec where
  id : String
  name : String
  description : String
  massKg : ℚ
  wheelbaseM : ℚ
  trackWidthM : ℚ
  turningCircleM : ℚ
  enginePowerKw : ℚ
  torqueCurve : List (ℚ × ℚ)
  gearRatios : List ℚ
  finalDrive : ℚ
  wheelRadiusM : ℚ
  tireSetup : TireSetup
  suspension : Suspension
deriving DecidableEq, Repr

/-- The `M3 Coupe` entry of `CARS` from cars.ts. -/
def carM3 : CarSpec :=
  { id := "m3", name := "M3 Coupe",
    description := "Front-engine sport coupe. Nimble, eager to rotate.",
    massKg := 1720, wheelbaseM := 2.731, trackWidthM := 1.55,
    turningCircleM := 11.0, enginePowerKw := 317,
    torqueCurve := [(1000, 240), (2000, 330), (3500, 410), (5500, 500), (7000, 430)],
    gearRatios := [3.8, 2.4, 1.7, 1.3, 1.0, 0.86],
    finalDrive := 3.42, wheelRadiusM := 0.33,
    tireSetup := { compound := .sport, pressureFrontPsi := 34, pressureRearPsi := 33 },
    suspension := { rideHeight := 0.12, springRate := 0.7, damping := 0.6, antiRoll := 0.6 } }

/-- The `Kia Carnival` entry of `CARS` from cars.ts. -/
def carCarnival : CarSpec :=
  { id := "carnival", name := "Kia Carnival",
    description := "Heavy minivan. Smooth but understeers, longer braking.",
    massKg := 1985, wheelbaseM := 3.09, trackWidthM := 1.68,
    turningCircleM := 11.75, enginePowerKw := 216,
    torqueCurve := [(1000, 250), (2000, 320), (3500, 360), (5000, 380), (6000, 310)],
    gearRatios := [3.6, 2.1, 1.5, 1.15, 0.85],
    finalDrive := 3.6, wheelRadiusM := 0.34,
    tireSetup := { compound := .street, pressureFrontPsi := 36, pressureRearPsi := 36 },
    suspension := { rideHeight := 0.18, springRate := 0.5, damping := 0.5, antiRoll := 0.4 } }

/-- The `CARS` list from cars.ts. -/
def CARS : List CarSpec := [carM3, carCarnival]

/-! ## Vehicle dynamics (src/physics/Vehicle.ts) -/

/-- `VehicleInput` from Vehicle.ts. -/
structure VehicleInput where
  throttle : ℚ
  brake : ℚ
  steer : ℚ
  handbrake : ℚ
deriving DecidableEq, Repr

/-- A 2-component vector `{x, z}` as used in `VehicleState`. -/
structure Vec2 where
  x : ℚ
  z : ℚ
deriving DecidableEq, Repr

/-- `VehicleState` from Vehicle.ts.  `gear` only ever holds integer values
(initialized to 1, changed in steps of ±1), so it is modeled as `ℤ`. -/
structure VehicleState where
  position : Vec2
  velocity : Vec2
  heading : ℚ
  yawRate : ℚ
  engineRpm : ℚ
  gear : ℤ
  wheelSpeed : ℚ
  speed : ℚ
  tireState : TireState
deriving DecidableEq, Repr

/-- `VehicleTuning` from Vehicle.ts. -/
structure VehicleTuning where
  finalDrive : ℚ
  gearRatios : List ℚ
  brakeBias : ℚ
  brakeStrength : ℚ
  weightReduction : ℚ
  engineStage : ℚ
  suspension : Suspension
  tireSetup : TireSetup
deriving DecidableEq, Repr

/-- The `Vehicle` class fields from Vehicle.ts.  The private constant
`revLimiter = 7200` is never reassigned and is modeled by the constant
`revLimiter` below. -/
structure Vehicle where
  state : VehicleState
  tuning : VehicleTuning
  manualMode : Bool
  driftAssist : ℚ
  tractionAssist : ℚ
  maxSteerAngle : ℚ
  handbrakeGripLoss : ℚ
  terrain : TerrainType
  car : CarSpec
  clutch : ℚ
deriving DecidableEq, Repr

/-- The private `revLimiter = 7200` field of `Vehicle`. -/
def revLimiter : ℚ := 7200

/-- The `Vehicle` constructor from Vehicle.ts (field initializers plus the
constructor body). -/
def mkVehicle (car : CarSpec) (tuning : VehicleTuning) : Vehicle :=
  { state :=
      { position := ⟨0, 0⟩, velocity := ⟨0, 0⟩, heading := 0, yawRate := 0,
        engineRpm := 1200, gear := 1, wheelSpeed := 0, speed := 0,
        tireState := { slipAngle := 0, slipRatio := 0, combinedSlip := 0, gripFactor := 1 } },
    tuning := tuning, manualMode := false, driftAssist := 0.7,
    tractionAssist := 0.6, maxSteerAngle := 0.55, handbrakeGripLoss := 0.55,
    terrain := .asphalt, car := car, clutch := 0 }

/-- The default tuning built by `Game.loadTuning` when nothing is saved. -/
def defaultTuning (car : CarSpec) : VehicleTuning :=
  { finalDrive := car.finalDrive, gearRatios := car.gearRatios,
    brakeBias := 0.6, brakeStrength := 1, weightReduction := 0, engineStage := 0,
    suspension := car.suspension, tireSetup := car.tireSetup }

/-- `Vehicle.reset` from Vehicle.ts (lines 80-91).  It assigns position,
velocity, heading, yawRate, engineRpm, gear, wheelSpeed and speed; it does
not touch `tireState` (nor any other field of the class). -/
def Vehicle.reset (v : Vehicle) (positionX positionZ : ℚ) : Vehicle :=
  { v with state :=
      { v.state with
        position := ⟨positionX, positionZ⟩, velocity := ⟨0, 0⟩,
        heading := 0, yawRate := 0, engineRpm := 1200, gear := 1,
        wheelSpeed := 0, speed := 0 } }

/-- The `for` loop of `Vehicle.torqueAtRpm`: `prev` is `curve[i-1]`, the
list argument is the remaining tail `curve[i..]`; when the loop runs out the
source returns `curve[curve.length - 1][1]`, which is `prev.2`. -/
def torqueLoop (rpm : ℚ) : ℚ × ℚ → List (ℚ × ℚ) → ℚ
  | prev, [] => prev.2
  | prev, q :: rest =>
    if rpm ≤ q.1 then prev.2 + (q.2 - prev.2) * ((rpm - prev.1) / (q.1 - prev.1))
    else torqueLoop rpm q rest

/-- `Vehicle.torqueAtRpm` from Vehicle.ts (lines 93-105), as a function of
the car's torque curve.  On an empty curve the JavaScript source reads
`curve[0][0]` of `undefined` and produces `NaN`; the spec declares an empty
curve a caller contract violation, so that branch returns 0 here. -/
def torqueAtRpm (curve : List (ℚ × ℚ)) (rpm : ℚ) : ℚ :=
  match curve with
  | [] => 0
  | p0 :: rest => if rpm ≤ p0.1 then p0.2 else torqueLoop rpm p0 rest

/-- The gear-ratio lookup `this.tuning.gearRatios[state.gear - 1] ??
this.tuning.gearRatios[0]` from Vehicle.ts line 150.  For `gear - 1`
negative or out of bounds, JavaScript indexing yields `undefined` and the
`??` falls back to `gearRatios[0]`; `(gear - 1).toNat` is 0 for negative
`gear - 1`, which looks up the same fallback element. -/
def gearRatioAt (ratios : List ℚ) (gear : ℤ) : ℚ :=
  ratios.getD (gear - 1).toNat (ratios.headD 0)

/-- `Vehicle.updateAutomaticGear` from Vehicle.ts (lines 107-115). -/
def Vehicle.updateAutomaticGear (v : Vehicle) : Vehicle :=
  let rpm := v.state.engineRpm
  let maxGear : ℤ := v.tuning.gearRatios.length
  if 6500 < rpm ∧ v.state.gear < maxGear then
    { v with state := { v.state with gear := v.state.gear + 1 } }
  else if rpm < 2200 ∧ 1 < v.state.gear then
    { v with state := { v.state with gear := v.state.gear - 1 } }
  else v

/-- `Vehicle.shiftUp` from Vehicle.ts (lines 117-124). -/
def Vehicle.shiftUp (v : Vehicle) : Vehicle :=
  if !v.manualMode then v
  else
    let maxGear : ℤ := v.tuning.gearRatios.length
    if v.state.gear < maxGear then
      { v with state := { v.state with gear := v.state.gear + 1 }, clutch := 0.2 }
    else v

/-- `Vehicle.shiftDown` from Vehicle.ts (lines 126-132). -/
def Vehicle.shiftDown (v : Vehicle) : Vehicle :=
  if !v.manualMode then v
  else if 1 < v.state.gear then
    { v with state := { v.state with gear := v.state.gear - 1 }, clutch := 0.2 }
  else v

/-- `Vehicle.update` from Vehicle.ts (lines 134-222), mirroring the source
statement by statement.  The mutations of `state.wheelSpeed`,
`state.engineRpm` and (in automatic mode) `state.gear` happen mid-function
and are threaded through `vB`; everything after line 158 only reads those
fields, writes the remaining state fields once at the end, and decays the
clutch. -/
def Vehicle.update (ops : MathOps) (v : Vehicle) (dt : ℚ) (input : VehicleInput) : Vehicle :=
  let totalMass := v.car.massKg * (1 - v.tuning.weightReduction * 0.08)
  let steerInput := jmax (-1) (jmin 1 input.steer)
  let steerAngle := steerInput * v.maxSteerAngle
  let _speed := ops.hypot v.state.velocity.x v.state.velocity.z
  let forwardX := ops.sin v.state.heading
  let forwardZ := ops.cos v.state.heading
  let sideX := ops.sin (v.state.heading + ops.pi / 2)
  let sideZ := ops.cos (v.state.heading + ops.pi / 2)
  let longitudinalSpeed := v.state.velocity.x * forwardX + v.state.velocity.z * forwardZ
  let lateralSpeed := v.state.velocity.x * sideX + v.state.velocity.z * sideZ
  let wheelRadius := v.car.wheelRadiusM
  let gearRatio := gearRatioAt v.tuning.gearRatios v.state.gear
  let driveRatio := gearRatio * v.tuning.finalDrive
  let wheelRpm := jmax 0 (longitudinalSpeed / (2 * ops.pi * wheelRadius) * 60)
  let engineRpm := jmax 1000 (jmin revLimiter (wheelRpm * driveRatio + 1000))
  let vA : Vehicle :=
    { v with state := { v.state with wheelSpeed := wheelRpm, engineRpm := engineRpm } }
  let vB := if vA.manualMode then vA else vA.updateAutomaticGear
  let engineTorque := torqueAtRpm vB.car.torqueCurve vB.state.engineRpm * (1 + vB.tuning.engineStage * 0.12)
  let driveTorque := engineTorque * driveRatio * (1 - vB.clutch)
  let throttleForce := driveTorque / wheelRadius * input.throttle
  let brakeForce := vB.tuning.brakeStrength * input.brake * 12000
  let rolling := (TERRAINS vB.terrain).rollingResistance * longitudinalSpeed * longitudinalSpeed * 0.5
  let wtLongitudinal := vB.tuning.suspension.springRate * (throttleForce - brakeForce) * 0.00004
  let wtLateral := vB.tuning.suspension.antiRoll * lateralSpeed * 0.002
  let frontGrip := tireGripForTerrain vB.tuning.tireSetup vB.terrain true * (1 - wtLongitudinal + wtLateral * 0.2)
  let rearGrip := tireGripForTerrain vB.tuning.tireSetup vB.terrain false * (1 + wtLongitudinal - wtLateral * 0.2)
  let gripLoss := if 0 < input.handbrake then vB.handbrakeGripLoss else 1
  let rearGripAdjusted := rearGrip * gripLoss
  let yawDesired := longitudinalSpeed / (vB.car.wheelbaseM + 0.2) * ops.tan steerAngle
  let yawError := yawDesired - vB.state.yawRate
  let yawAccel := yawError * (2.2 - vB.tuning.suspension.damping) * 3
  let lateralForce := -lateralSpeed * 4 * rearGripAdjusted
  let longitudinalForce := throttleForce - brakeForce - rolling
  let slipAngle := ops.atan2 lateralSpeed (jabs longitudinalSpeed + 0.5)
  let slipRatio := (throttleForce - brakeForce) / jmax 4000 (totalMass * 3)
  let combinedSlip := jmin 1 (jabs slipAngle + jabs slipRatio)
  let circle := frictionCircle ops.sqrt (jabs slipRatio) (jabs slipAngle)
  let gripFactor := circle * (rearGripAdjusted + frontGrip) * 0.5
  let driftFactor := if 0.55 < combinedSlip ∨ 0.2 < input.handbrake then 0.85 else 1
  let yawClamp := 1 + (1 - vB.driftAssist) * 1.2
  let yawRate1 := vB.state.yawRate + yawAccel * dt
  let yawRate2 := jmax (-yawClamp) (jmin yawClamp yawRate1)
  let accelLong := longitudinalForce * gripFactor / totalMass
  let accelLat := lateralForce * frontGrip * driftFactor / totalMass
  let vx1 := vB.state.velocity.x + (forwardX * accelLong + sideX * accelLat) * dt
  let vz1 := vB.state.velocity.z + (forwardZ * accelLong + sideZ * accelLat) * dt
  let heading1 := vB.state.heading + yawRate2 * dt
  let traction := 1 - vB.tractionAssist * jmax 0 (combinedSlip - 0.4)
  let vx2 := vx1 * traction
  let vz2 := vz1 * traction
  let px := vB.state.position.x + vx2 * dt
  let pz := vB.state.position.z + vz2 * dt
  let speed1 := ops.hypot vx2 vz2
  let clutch1 := jmax 0 (vB.clutch - dt * 2)
  { vB with
    state :=
      { vB.state with
        position := ⟨px, pz⟩, velocity := ⟨vx2, vz2⟩, heading := heading1,
        yawRate := yawRate2, speed := speed1,
        tireState :=
          { slipAngle := slipAngle, slipRatio := slipRatio,
            combinedSlip := combinedSlip, gripFactor := gripFactor } },
    clutch := clutch1 }

/-- One driver-visible operation on a `Vehicle`: a simulation step (with its
time step and input) or a manual shift command. -/
inductive DriverOp where
  | step (ops : MathOps) (dt : ℚ) (input : VehicleInput)
  | up
  | down

/-- Apply one `DriverOp`. -/
def applyOp (v : Vehicle) : DriverOp → Vehicle
  | .step ops dt input => v.update ops dt input
  | .up => v.shiftUp
  | .down => v.shiftDown

/-- Apply a sequence of `DriverOp`s from left to right. -/
def applyOps (v : Vehicle) (l : List DriverOp) : Vehicle :=
  l.foldl applyOp v

/-- The new gear chosen by `updateAutomaticGear`, as a function of the
engine rpm, the current gear and the number of gears. -/
def nextAutoGear (rpm : ℚ) (gear maxGear : ℤ) : ℤ :=
  if 6500 < rpm ∧ gear < maxGear then gear + 1
  else if rpm < 2200 ∧ 1 < gear then gear - 1
  else gear

/-- The engine rpm computed (and clamped) by `Vehicle.update` at source
line 155, before any gear change. -/
def updateEngineRpm (ops : MathOps) (v : Vehicle) : ℚ :=
  let forwardX := ops.sin v.state.heading
  let forwardZ := ops.cos v.state.heading
  let longitudinalSpeed := v.state.velocity.x * forwardX + v.state.velocity.z * forwardZ
  let wheelRpm := jmax 0 (longitudinalSpeed / (2 * ops.pi * v.car.wheelRadiusM) * 60)
  jmax 1000 (jmin revLimiter (wheelRpm * (gearRatioAt v.tuning.gearRatios v.state.gear * v.tuning.finalDrive) + 1000))

/-! ## Route graph and sampler (src/tracks/RouteGraph.ts) -/

/-- `RouteSegment` from RouteGraph.ts. -/
structure RouteSegment where
  id : String
  length : ℚ
  curvature : ℚ
  slope : ℚ
  width : ℚ
  scenery : ℚ
  terrain : TerrainType
deriving DecidableEq, Repr

/-- `RouteNode` from RouteGraph.ts.  Absent `left`/`right`/`destination`
fields are `none`. -/
structure RouteNode where
  id : String
  stage : ℕ
  segment : RouteSegment
  left : Option String
  right : Option String
  destination : Option String
deriving DecidableEq, Repr

/-- The 15 statically written stage-1..4 entries of `ROUTE_GRAPH`. -/
def baseRouteNodes : List RouteNode :=
  [{ id := "s1", stage := 1,
     segment := { id := "s1", length := 900, curvature := 0.001, slope := 0.002,
                  width := 10, scenery := 0.7, terrain := .asphalt },
     left := some "s2l", right := some "s2r", destination := none },
   { id := "s2l", stage := 2,
     segment := { id := "s2l", length := 850, curvature := -0.0022, slope := 0.004,
                  width := 9, scenery := 0.9, terrain := .wet },
     left := some "s3ll", right := some "s3lr", destination := none },
   { id := "s2r", stage := 2,
     segment := { id := "s2r", length := 800, curvature := 0.0026, slope := -0.003,
                  width := 9, scenery := 0.8, terrain := .dirt },
     left := some "s3rl", right := some "s3rr", destination := none },
   { id := "s3ll", stage := 3,
     segment := { id := "s3ll", length := 780, curvature := 0.0032, slope := 0.006,
                  width := 8.5, scenery := 0.95, terrain := .wet },
     left := some "s4lll", right := some "s4llr", destination := none },
   { id := "s3lr", stage := 3,
     segment := { id := "s3lr", length := 760, curvature := -0.0034, slope := 0.001,
                  width := 8.8, scenery := 0.85, terrain := .asphalt },
     left := some "s4lrl", right := some "s4lrr", destination := none },
   { id := "s3rl", stage := 3,
     segment := { id := "s3rl", length := 750, curvature := 0.003, slope := -0.004,
                  width := 9, scenery := 0.7, terrain := .dirt },
     left := some "s4rll", right := some "s4rlr", destination := none },
   { id := "s3rr", stage := 3,
     segment := { id := "s3rr", length := 770, curvature := -0.0028, slope := 0.002,
                  width := 9.2, scenery := 0.6, terrain := .sand },
     left := some "s4rrl", right := some "s4rrr", destination := none },
   { id := "s4lll", stage := 4,
     segment := { id := "s4lll", length := 720, curvature := 0.0035, slope := 0.006,
                  width := 8, scenery := 1, terrain := .wet },
     left := some "s5llll", right := some "s5lllr", destination := none },
   { id := "s4llr", stage := 4,
     segment := { id := "s4llr", length := 710, curvature := -0.0036, slope := 0.004,
                  width := 8.2, scenery := 0.9, terrain := .wet },
     left := some "s5llrl", right := some "s5llrr", destination := none },
   { id := "s4lrl", stage := 4,
     segment := { id := "s4lrl", length := 700, curvature := 0.0032, slope := -0.003,
                  width := 8.3, scenery := 0.8, terrain := .asphalt },
     left := some "s5lrll", right := some "s5lrlr", destination := none },
   { id := "s4lrr", stage := 4,
     segment := { id := "s4lrr", length := 700, curvature := -0.0035, slope := -0.002,
                  width := 8.4, scenery := 0.7, terrain := .asphalt },
     left := some "s5lrrl", right := some "s5lrrr", destination := none },
   { id := "s4rll", stage := 4,
     segment := { id := "s4rll", length := 690, curvature := 0.003, slope := -0.004,
                  width := 8.6, scenery := 0.6, terrain := .dirt },
     left := some "s5rlll", right := some "s5rllr", destination := none },
   { id := "s4rlr", stage := 4,
     segment := { id := "s4rlr", length := 680, curvature := -0.0032, slope := -0.003,
                  width := 8.6, scenery := 0.6, terrain := .dirt },
     left := some "s5rlrl", right := some "s5rlrr", destination := none },
   { id := "s4rrl", stage := 4,
     segment := { id := "s4rrl", length := 670, curvature := 0.0028, slope := 0.002,
                  width := 8.8, scenery := 0.5, terrain := .sand },
     left := some "s5rrll", right := some "s5rrlr", destination := none },
   { id := "s4rrr", stage := 4,
     segment := { id := "s4rrr", length := 660, curvature := -0.003, slope := 0.003,
                  width := 8.8, scenery := 0.5, terrain := .sand },
     left := some "s5rrrl", right := some "s5rrrr", destination := none }]

/-- `DESTINATIONS` from RouteGraph.ts. -/
def DESTINATIONS : List String := ["A", "B", "C", "D", "E"]

/-- `stage5Nodes` from RouteGraph.ts (the fixed traversal order of the 16
stage-5 leaves). -/
def stage5Nodes : List String :=
  ["s5llll", "s5lllr", "s5llrl", "s5llrr", "s5lrll", "s5lrlr", "s5lrrl", "s5lrrr",
   "s5rlll", "s5rllr", "s5rlrl", "s5rlrr", "s5rrll", "s5rrlr", "s5rrrl", "s5rrrr"]

/-- The body of the `stage5Nodes.forEach((id, index) => ...)` loop that
generates the stage-5 leaves of `ROUTE_GRAPH`. -/
def stage5Node (index : ℕ) (id : String) : RouteNode :=
  { id := id, stage := 5,
    segment :=
      { id := id,
        length := 650 - ((index % 4 : ℕ) : ℚ) * 15,
        curvature := (if index % 2 = 0 then (1 : ℚ) else -1) * (0.0025 + ((index % 3 : ℕ) : ℚ) * 0.0004),
        slope := (((index % 3 : ℕ) : ℚ) - 1) * 0.002,
        width := 8.2, scenery := 0.4,
        terrain := if index % 2 = 0 then .grass else .asphalt },
    left := none, right := none,
    destination := some (DESTINATIONS.getD (index % DESTINATIONS.length) "") }

/-- `ROUTE_GRAPH` from RouteGraph.ts: the 15 static nodes plus the 16
generated stage-5 leaves (a keyed table; lookup is by the `id` field). -/
def ROUTE_GRAPH : List RouteNode :=
  baseRouteNodes ++ (stage5Nodes.enum.map fun p => stage5Node p.1 p.2)

/-- The `ROUTE_GRAPH[id]` table lookup. -/
def routeLookup (idStr : String) : Option RouteNode :=
  ROUTE_GRAPH.find? fun n => n.id == idStr

/-- `RoutePath` from RouteGraph.ts. -/
structure RoutePath where
  nodes : List RouteNode
  totalLength : ℚ
  destination : String
deriving DecidableEq, Repr

/-- The `while (currentId)` loop of `buildRoutePath`.  The JavaScript loop
terminates only by reaching a node with a truthy (non-empty) destination or
a node with neither child; the fuel bounds the iteration count (the static
graph is acyclic, so the fuel is never exhausted from "s1").  A node id
missing from the table crashes the source (`node.segment` of `undefined`)
and yields `none` here. -/
def buildRoutePathAux : ℕ → Option String → List RouteNode → ℚ → Option RoutePath
  | 0, _, _, _ => none
  | _ + 1, none, acc, total => some { nodes := acc, totalLength := total, destination := "" }
  | fuel + 1, some cid, acc, total =>
    match routeLookup cid with
    | none => none
    | some node =>
      if (node.destination.getD "") ≠ "" then
        some { nodes := acc ++ [node], totalLength := total + node.segment.length,
               destination := node.destination.getD "" }
      else
        buildRoutePathAux fuel (node.left.orElse fun _ => node.right)
          (acc ++ [node]) (total + node.segment.length)

/-- `buildRoutePath` from RouteGraph.ts. -/
def buildRoutePath (startId : String) : Option RoutePath :=
  buildRoutePathAux (ROUTE_GRAPH.length + 1) (some startId) [] 0

/-- `RouteSamples` from RouteGraph.ts. -/
structure RouteSamples where
  points : List (ℚ × ℚ × ℚ)
  widths : List ℚ
  terrainTypes : List TerrainType
  distances : List ℚ
deriving DecidableEq, Repr

/-- The mutable locals of `buildRouteSamples` (`x`, `y`, `z`, `heading`,
`total`) together with the four output arrays. -/
structure SampleAcc where
  x : ℚ
  y : ℚ
  z : ℚ
  heading : ℚ
  total : ℚ
  points : List (ℚ × ℚ × ℚ)
  widths : List ℚ
  terrains : List TerrainType
  distances : List ℚ
deriving DecidableEq, Repr

/-- One iteration of the inner `for` loop of `buildRouteSamples`. -/
def sampleStep (ops : MathOps) (node : RouteNode) (acc : SampleAcc) : SampleAcc :=
  let heading := acc.heading + node.segment.curvature * 20
  let x := acc.x + ops.sin heading * 20
  let z := acc.z + ops.cos heading * 20
  let y := acc.y + node.segment.slope * 20
  let total := acc.total + 20
  { x := x, y := y, z := z, heading := heading, total := total,
    points := acc.points ++ [(x, y, z)],
    widths := acc.widths ++ [node.segment.width],
    terrains := acc.terrains ++ [node.segment.terrain],
    distances := acc.distances ++ [total] }

/-- Run `n` iterations of a loop body. -/
def runSteps (f : SampleAcc → SampleAcc) : ℕ → SampleAcc → SampleAcc
  | 0, acc => acc
  | n + 1, acc => runSteps f n (f acc)

/-- The iteration count `Math.floor(node.segment.length / 20)` of the inner
loop (a negative count runs the JavaScript loop zero times, as `toNat`
does). -/
def sampleSteps (node : RouteNode) : ℕ :=
  (⌊node.segment.length / 20⌋).toNat

/-- `buildRouteSamples` from RouteGraph.ts. -/
def buildRouteSamples (ops : MathOps) (nodes : List RouteNode) : RouteSamples :=
  let acc := nodes.foldl (fun acc node => runSteps (sampleStep ops node) (sampleSteps node) acc)
    { x := 0, y := 0, z := 0, heading := 0, total := 0,
      points := [], widths := [], terrains := [], distances := [] }
  { points := acc.points, widths := acc.widths, terrainTypes := acc.terrains,
    distances := acc.distances }

/-- Test fixture for the sampler: a 50 m segment (2 samples) followed by a
10 m segment (no samples). -/
def wNodes : List RouteNode :=
  [{ id := "wa", stage := 1,
     segment := { id := "wa", length := 50, curvature := 0, slope := 0,
                  width := 8, scenery := 0, terrain := .asphalt },
     left := none, right := none, destination := none },
   { id := "wb", stage := 2,
     segment := { id := "wb", length := 10, curvature := 0, slope := 0,
                  width := 8, scenery := 0, terrain := .dirt },
     left := none, right := none, destination := none }]

/-- Invariant of the sampler loop: the distances recorded so far are
`20, 40, ..., 20·k` and the running `total` is `20·k`. -/
def goodAcc (acc : SampleAcc) : Prop :=
  acc.distances = (List.range acc.distances.length).map (fun i : ℕ => (20 : ℚ) * ((i : ℚ) + 1)) ∧
    acc.total = 20 * acc.distances.length

/-- Test fixture: the M3 with its default tuning, exactly as built on
vehicle selection. -/
def testVehicle : Vehicle := mkVehicle carM3 (defaultTuning carM3)

/-- Test fixture: a vehicle whose tire state has been disturbed (as any
`update` call during driving does). -/
def dirtyVehicle : Vehicle :=
  { testVehicle with state := { testVehicle.state with
      tireState := { slipAngle := 1, slipRatio := 0, combinedSlip := 0, gripFactor := 1 } } }

/-! ## Theorems -/

/-- `jmin` is the lattice `min` on `ℚ`. -/
theorem jmin_eq_min (a b : ℚ) : jmin a b = min a b := (min_def a b).symm

/-- `jmax` is the lattice `max` on `ℚ`. -/
theorem jmax_eq_max (a b : ℚ) : jmax a b = max a b := by
  unfold jmax
  rcases le_total a b with h | h
  · rw [if_pos h, max_eq_right h]
  · rcases lt_or_eq_of_le h with h' | h'
    · rw [if_neg (not_le_of_lt h'), max_eq_left h]
    · subst h'; simp

/-- `jabs` is the absolute value on `ℚ`. -/
theorem jabs_eq_abs (a : ℚ) : jabs a = |a| := by
  unfold jabs
  rcases lt_or_le a 0 with h | h
  · rw [if_pos h, abs_of_neg h]
  · rw [if_neg (not_lt_of_le h), abs_of_nonneg h]

/-- `updateAutomaticGear` only rewrites `state.gear`, to `nextAutoGear`. -/
theorem updateAutomaticGear_eq (v : Vehicle) :
    v.updateAutomaticGear =
      { v with state := { v.state with
          gear := nextAutoGear v.state.engineRpm v.state.gear v.tuning.gearRatios.length } } := by
  simp only [Vehicle.updateAutomaticGear, nextAutoGear]
  split_ifs <;> rfl

/-- Projection of `Vehicle.update`: the resulting engine rpm is the clamp
computed at source line 155. -/
theorem update_engineRpm (ops : MathOps) (v : Vehicle) (dt : ℚ) (input : VehicleInput) :
    (v.update ops dt input).state.engineRpm = updateEngineRpm ops v := by
  simp only [Vehicle.update, updateEngineRpm, updateAutomaticGear_eq]
  cases v.manualMode <;> rfl

/-- Projection of `Vehicle.update`: the resulting gear is unchanged in
manual mode and is `nextAutoGear` of the freshly clamped rpm otherwise. -/
theorem update_gear (ops : MathOps) (v : Vehicle) (dt : ℚ) (input : VehicleInput) :
    (v.update ops dt input).state.gear =
      if v.manualMode then v.state.gear
      else nextAutoGear (updateEngineRpm ops v) v.state.gear v.tuning.gearRatios.length := by
  simp only [Vehicle.update, updateEngineRpm, updateAutomaticGear_eq]
  cases v.manualMode <;> rfl

/-- C1: for every `MathOps` implementation, every vehicle, every finite time
step and every driver input, the engine rpm after `Vehicle.update` lies in
`[1000, 7200]` (floor 1000, rev limiter 7200). -/
theorem update_engineRpm_bounds (ops : MathOps) (v : Vehicle) (dt : ℚ) (input : VehicleInput) :
    1000 ≤ (v.update ops dt input).state.engineRpm ∧
      (v.update ops dt input).state.engineRpm ≤ 7200 := by
  rw [update_engineRpm, updateEngineRpm]
  rw [jmax_eq_max, jmin_eq_min]
  constructor
  · exact le_max_left _ _
  · exact max_le (by norm_num) (le_trans (min_le_left _ _) (by norm_num [revLimiter]))

/-- Shared frame lemma: `Vehicle.update` leaves every field other than
`state` and `clutch` unchanged. -/
theorem update_frame_aux (ops : MathOps) (v : Vehicle) (dt : ℚ) (input : VehicleInput) :
    (v.update ops dt input).car = v.car ∧
    (v.update ops dt input).tuning = v.tuning ∧
    (v.update ops dt input).manualMode = v.manualMode ∧
    (v.update ops dt input).driftAssist = v.driftAssist ∧
    (v.update ops dt input).tractionAssist = v.tractionAssist ∧
    (v.update ops dt input).maxSteerAngle = v.maxSteerAngle ∧
    (v.update ops dt input).handbrakeGripLoss = v.handbrakeGripLoss ∧
    (v.update ops dt input).terrain = v.terrain := by
  simp only [Vehicle.update, updateAutomaticGear_eq]
  cases v.manualMode <;> simp

/-- C10: `Vehicle.update` mutates only the vehicle state and the private
clutch value; the car spec, the tuning (gear ratios, suspension, tire setup
included), the terrain, and the assist/configuration scalars are unchanged
by every call, for every `MathOps`, `dt` and input. -/
theorem update_mutates_only_state_and_clutch (ops : MathOps) (v : Vehicle) (dt : ℚ)
    (input : VehicleInput) :
    (v.update ops dt input).car = v.car ∧
    (v.update ops dt input).tuning = v.tuning ∧
    (v.update ops dt input).manualMode = v.manualMode ∧
    (v.update ops dt input).driftAssist = v.driftAssist ∧
    (v.update ops dt input).tractionAssist = v.tractionAssist ∧
    (v.update ops dt input).maxSteerAngle = v.maxSteerAngle ∧
    (v.update ops dt input).handbrakeGripLoss = v.handbrakeGripLoss ∧
    (v.update ops dt input).terrain = v.terrain :=
  update_frame_aux ops v dt input

/-- C8: in automatic mode a single `update` changes the gear by at most one
step; it increments exactly when the freshly clamped rpm exceeds 6500 and a
higher gear exists, and otherwise decrements exactly when the rpm is below
2200 and the gear is above 1 (the down-shift test runs only when the
up-shift does not fire). -/
theorem update_autoShift_spec (ops : MathOps) (v : Vehicle) (dt : ℚ) (input : VehicleInput)
    (hm : v.manualMode = false) :
    ((v.update ops dt input).state.gear = v.state.gear + 1 ↔
      6500 < (v.update ops dt input).state.engineRpm ∧
        v.state.gear < (v.tuning.gearRatios.length : ℤ)) ∧
    ((v.update ops dt input).state.gear = v.state.gear - 1 ↔
      ¬(6500 < (v.update ops dt input).state.engineRpm ∧
          v.state.gear < (v.tuning.gearRatios.length : ℤ)) ∧
        ((v.update ops dt input).state.engineRpm < 2200 ∧ 1 < v.state.gear)) ∧
    ((v.update ops dt input).state.gear - v.state.gear = 1 ∨
      (v.update ops dt input).state.gear - v.state.gear = 0 ∨
      (v.update ops dt input).state.gear - v.state.gear = -1) := by
  rw [update_gear, update_engineRpm, hm]
  simp only [Bool.false_eq_true, if_false]
  unfold nextAutoGear
  split_ifs with h1 h2
  · refine ⟨⟨fun _ => h1, fun _ => rfl⟩, ?_, Or.inl (by omega)⟩
    constructor
    · intro he; exfalso; omega
    · rintro ⟨hn, -⟩; exact absurd h1 hn
  · refine ⟨?_, ⟨fun _ => ⟨h1, h2⟩, fun _ => rfl⟩, Or.inr (Or.inr (by omega))⟩
    constructor
    · intro he; exfalso; omega
    · intro hc; exact absurd hc h1
  · refine ⟨?_, ?_, Or.inr (Or.inl (by omega))⟩
    · constructor
      · intro he; exfalso; omega
      · intro hc; exact absurd hc h1
    · constructor
      · intro he; exfalso; omega
      · rintro ⟨-, hc⟩; exact absurd hc h2

/-- Concrete witness for C8: the default M3 at rest in automatic mode. -/
theorem update_autoShift_spec_witness :
    (mkVehicle carM3 (defaultTuning carM3)).manualMode = false ∧
    (((mkVehicle carM3 (defaultTuning carM3)).update zeroOps (1/60)
          ⟨1, 0, 0, 0⟩).state.gear -
        (mkVehicle carM3 (defaultTuning carM3)).state.gear = 1 ∨
      ((mkVehicle carM3 (defaultTuning carM3)).update zeroOps (1/60)
          ⟨1, 0, 0, 0⟩).state.gear -
        (mkVehicle carM3 (defaultTuning carM3)).state.gear = 0 ∨
      ((mkVehicle carM3 (defaultTuning carM3)).update zeroOps (1/60)
          ⟨1, 0, 0, 0⟩).state.gear -
        (mkVehicle carM3 (defaultTuning carM3)).state.gear = -1) :=
  ⟨rfl, (update_autoShift_spec zeroOps (mkVehicle carM3 (defaultTuning carM3)) (1/60)
    ⟨1, 0, 0, 0⟩ rfl).2.2⟩

/-- `shiftUp` either increments the gear (manual mode, below top gear,
clutch set to 0.2) or is the identity. -/
theorem shiftUp_eq (v : Vehicle) :
    v.shiftUp =
      if v.manualMode = true ∧ v.state.gear < (v.tuning.gearRatios.length : ℤ) then
        { v with state := { v.state with gear := v.state.gear + 1 }, clutch := 0.2 }
      else v := by
  simp only [Vehicle.shiftUp]
  cases hm : v.manualMode
  · rw [if_pos (show (!false) = true from rfl), if_neg (fun hc => Bool.noConfusion hc.1)]
  · rw [if_neg (fun hc => by simp at hc)]
    by_cases hg : v.state.gear < (v.tuning.gearRatios.length : ℤ)
    · rw [if_pos hg, if_pos ⟨rfl, hg⟩]
    · rw [if_neg hg, if_neg (fun hc => hg hc.2)]

/-- `shiftDown` either decrements the gear (manual mode, above gear 1,
clutch set to 0.2) or is the identity. -/
theorem shiftDown_eq (v : Vehicle) :
    v.shiftDown =
      if v.manualMode = true ∧ 1 < v.state.gear then
        { v with state := { v.state with gear := v.state.gear - 1 }, clutch := 0.2 }
      else v := by
  simp only [Vehicle.shiftDown]
  cases hm : v.manualMode
  · rw [if_pos (show (!false) = true from rfl), if_neg (fun hc => Bool.noConfusion hc.1)]
  · rw [if_neg (fun hc => by simp at hc)]
    by_cases hg : 1 < v.state.gear
    · rw [if_pos hg, if_pos ⟨rfl, hg⟩]
    · rw [if_neg hg, if_neg (fun hc => hg hc.2)]

/-- Each driver operation keeps the gear within `[1, gearRatios.length]`
(bounds taken over the operation's own resulting tuning, which it
preserves). -/
theorem applyOp_gear_bounds (v : Vehicle) (op : DriverOp)
    (h1 : 1 ≤ v.state.gear) (h2 : v.state.gear ≤ (v.tuning.gearRatios.length : ℤ)) :
    1 ≤ (applyOp v op).state.gear ∧
      (applyOp v op).state.gear ≤ ((applyOp v op).tuning.gearRatios.length : ℤ) := by
  cases op with
  | step ops dt input =>
    have ht := (update_frame_aux ops v dt input).2.1
    simp only [applyOp, ht, update_gear]
    split_ifs with hmode
    · exact ⟨h1, h2⟩
    · unfold nextAutoGear
      split_ifs with hup hdown
      · omega
      · omega
      · exact ⟨h1, h2⟩
  | up =>
    simp only [applyOp, shiftUp_eq]
    split_ifs with h
    · refine ⟨?_, ?_⟩ <;> dsimp <;> omega
    · exact ⟨h1, h2⟩
  | down =>
    simp only [applyOp, shiftDown_eq]
    split_ifs with h
    · refine ⟨?_, ?_⟩ <;> dsimp <;> omega
    · exact ⟨h1, h2⟩

/-- Gear bounds are preserved by any sequence of driver operations. -/
theorem applyOps_gear_bounds (l : List DriverOp) :
    ∀ v : Vehicle, 1 ≤ v.state.gear → v.state.gear ≤ (v.tuning.gearRatios.length : ℤ) →
      1 ≤ (applyOps v l).state.gear ∧
        (applyOps v l).state.gear ≤ ((applyOps v l).tuning.gearRatios.length : ℤ) := by
  induction l with
  | nil => intro v h1 h2; exact ⟨h1, h2⟩
  | cons op rest ih =>
    intro v h1 h2
    have hstep := applyOp_gear_bounds v op h1 h2
    exact ih (applyOp v op) hstep.1 hstep.2

/-- C2: with a non-empty gear list and an in-range starting gear, any
sequence of `update` (automatic shifting), `shiftUp` and `shiftDown` calls
keeps the gear in `[1, gearRatios.length]`; `shiftUp` is a no-op at the top
gear, `shiftDown` is a no-op at gear 1, and both are complete no-ops when
`manualMode` is off. -/
theorem gear_invariant_spec (v : Vehicle) (hne : v.tuning.gearRatios ≠ [])
    (h1 : 1 ≤ v.state.gear) (h2 : v.state.gear ≤ (v.tuning.gearRatios.length : ℤ)) :
    (∀ l : List DriverOp,
      1 ≤ (applyOps v l).state.gear ∧
        (applyOps v l).state.gear ≤ ((applyOps v l).tuning.gearRatios.length : ℤ)) ∧
    (v.state.gear = (v.tuning.gearRatios.length : ℤ) → v.shiftUp = v) ∧
    (v.state.gear = 1 → v.shiftDown = v) ∧
    (v.manualMode = false → v.shiftUp = v ∧ v.shiftDown = v) := by
  refine ⟨fun l => applyOps_gear_bounds l v h1 h2, ?_, ?_, ?_⟩
  · intro htop
    rw [shiftUp_eq, if_neg]
    rintro ⟨-, hlt⟩
    omega
  · intro hbot
    rw [shiftDown_eq, if_neg]
    rintro ⟨-, hlt⟩
    omega
  · intro hm
    constructor
    · rw [shiftUp_eq, if_neg]; rintro ⟨hmm, -⟩; rw [hm] at hmm; cases hmm
    · rw [shiftDown_eq, if_neg]; rintro ⟨hmm, -⟩; rw [hm] at hmm; cases hmm

/-- Concrete witness for C2: the default M3, one automatic step followed by
both manual shift commands. -/
theorem gear_invariant_spec_witness :
    (mkVehicle carM3 (defaultTuning carM3)).tuning.gearRatios ≠ [] ∧
    1 ≤ (mkVehicle carM3 (defaultTuning carM3)).state.gear ∧
    (mkVehicle carM3 (defaultTuning carM3)).state.gear ≤
      ((mkVehicle carM3 (defaultTuning carM3)).tuning.gearRatios.length : ℤ) ∧
    (1 ≤ (applyOps (mkVehicle carM3 (defaultTuning carM3))
        [.step zeroOps (1/60) ⟨1, 0, 0, 0⟩, .up, .down]).state.gear ∧
      (applyOps (mkVehicle carM3 (defaultTuning carM3))
          [.step zeroOps (1/60) ⟨1, 0, 0, 0⟩, .up, .down]).state.gear ≤
        ((applyOps (mkVehicle carM3 (defaultTuning carM3))
            [.step zeroOps (1/60) ⟨1, 0, 0, 0⟩, .up, .down]).tuning.gearRatios.length : ℤ)) :=
  ⟨by simp [mkVehicle, defaultTuning, carM3], by decide, by decide,
    (gear_invariant_spec (mkVehicle carM3 (defaultTuning carM3))
      (by simp [mkVehicle, defaultTuning, carM3]) (by decide) (by decide)).1
      [.step zeroOps (1/60) ⟨1, 0, 0, 0⟩, .up, .down]⟩

/-- Clamping to `[-1, 1]` is idempotent. -/
theorem jclamp_steer_idem (s : ℚ) :
    jmax (-1) (jmin 1 (jmax (-1) (jmin 1 s))) = jmax (-1) (jmin 1 s) := by
  simp only [jmin_eq_min, jmax_eq_max]
  have hle : max (-1 : ℚ) (min 1 s) ≤ 1 := max_le (by norm_num) (min_le_left _ _)
  rw [min_eq_right hle, max_eq_right (le_max_left _ _)]

/-- A threshold test in `[0, 1)` cannot tell a handbrake value from its
clamp to `[0, 1]`. -/
theorem jclamp01_pos_iff (t h : ℚ) (h0 : 0 ≤ t) (h1 : t < 1) :
    (t < jmax 0 (jmin 1 h)) ↔ (t < h) := by
  simp only [jmin_eq_min, jmax_eq_max]
  rw [lt_max_iff, lt_min_iff]
  constructor
  · rintro (hc | ⟨-, hc⟩)
    · exact absurd hc (not_lt_of_le h0)
    · exact hc
  · intro hc
    exact Or.inr ⟨h1, hc⟩

/-- C3 (amended): `Vehicle.update` is invariant under clamping the steer
input to `[-1, 1]` (the source clamps it) and the handbrake input to
`[0, 1]` (only its comparison against the thresholds 0 and 0.2 is used),
for every `MathOps`, vehicle, time step and input.  Throttle and brake are
used raw and are not invariant under clamping (see the counterexample). -/
theorem update_clamps_steer_handbrake (ops : MathOps) (v : Vehicle) (dt : ℚ)
    (input : VehicleInput) :
    v.update ops dt
        { input with
          steer := jmax (-1) (jmin 1 input.steer),
          handbrake := jmax 0 (jmin 1 input.handbrake) } =
      v.update ops dt input := by
  simp only [Vehicle.update]
  rw [jclamp_steer_idem]
  simp only [jclamp01_pos_iff 0 input.handbrake le_rfl (by norm_num),
    jclamp01_pos_iff 0.2 input.handbrake (by norm_num) (by norm_num)]

/-- Counterexample for C3 as stated: out-of-range throttle (resp. brake)
values produce a different state than their clamped versions — these inputs
are used raw by the source. -/
theorem update_clamp_cex :
    (testVehicle.update zeroOps (1/60) ⟨2, 0, 0, 0⟩).state ≠
      (testVehicle.update zeroOps (1/60) ⟨1, 0, 0, 0⟩).state ∧
    (testVehicle.update zeroOps (1/60) ⟨0, 2, 0, 0⟩).state ≠
      (testVehicle.update zeroOps (1/60) ⟨0, 1, 0, 0⟩).state := by
  constructor <;>
    · intro h
      have h' := congrArg (fun s : VehicleState => s.tireState.slipRatio) h
      simp only [Vehicle.update, Vehicle.updateAutomaticGear, testVehicle, mkVehicle,
        defaultTuning, carM3, torqueAtRpm, torqueLoop, gearRatioAt, revLimiter, TERRAINS,
        jmax, jmin, jabs] at h'
      norm_num at h'

/-- C9 (amended): `Vehicle.reset` sets position to the given coordinates,
zeroes velocity, heading, yawRate, wheelSpeed and speed, sets engineRpm to
1200 and gear to 1 — but it leaves `tireState` untouched, so the state of a
reset vehicle equals a freshly constructed one's exactly when its tire
state already holds the initial values (slipAngle 0, slipRatio 0,
combinedSlip 0, gripFactor 1). -/
theorem reset_spec (v : Vehicle) (x z : ℚ) :
    (v.reset x z).state.position = ⟨x, z⟩ ∧
    (v.reset x z).state.velocity = ⟨0, 0⟩ ∧
    (v.reset x z).state.heading = 0 ∧
    (v.reset x z).state.yawRate = 0 ∧
    (v.reset x z).state.engineRpm = 1200 ∧
    (v.reset x z).state.gear = 1 ∧
    (v.reset x z).state.wheelSpeed = 0 ∧
    (v.reset x z).state.speed = 0 ∧
    (v.reset x z).state.tireState = v.state.tireState ∧
    ((v.reset 0 0).state = (mkVehicle v.car v.tuning).state ↔
      v.state.tireState =
        { slipAngle := 0, slipRatio := 0, combinedSlip := 0, gripFactor := 1 }) := by
  refine ⟨rfl, rfl, rfl, rfl, rfl, rfl, rfl, rfl, rfl, ?_⟩
  constructor
  · intro h
    simpa [Vehicle.reset, mkVehicle] using congrArg VehicleState.tireState h
  · intro h
    simp [Vehicle.reset, mkVehicle, h]

/-- Counterexample for C9 as stated: on a vehicle whose tire state has been
disturbed, `reset(0, 0)` does not reproduce the freshly constructed state
(`tireState` is not restored by `reset`). -/
theorem reset_cex :
    (dirtyVehicle.reset 0 0).state ≠ (mkVehicle carM3 (defaultTuning carM3)).state := by
  intro h
  have h' := congrArg (fun s : VehicleState => s.tireState.slipAngle) h
  simp only [dirtyVehicle, testVehicle, Vehicle.reset, mkVehicle] at h'
  norm_num at h'

/-- C5: `buildRoutePath "s1"` on the static graph returns a path of exactly
5 nodes, one per stage in order, each step descending via the `left` child;
its total length is the sum of the 5 traversed segment lengths and its
destination is one of A-E. -/
theorem buildRoutePath_s1_spec :
    ∃ p, buildRoutePath "s1" = some p ∧
      p.nodes.length = 5 ∧
      p.nodes.map RouteNode.stage = [1, 2, 3, 4, 5] ∧
      p.nodes.map RouteNode.id = ["s1", "s2l", "s3ll", "s4lll", "s5llll"] ∧
      ((p.nodes.zip p.nodes.tail).all fun q => q.1.left == some q.2.id) = true ∧
      p.totalLength = (p.nodes.map fun n => n.segment.length).sum ∧
      p.destination ∈ ["A", "B", "C", "D", "E"] := by
  refine ⟨_, rfl, ?_, ?_, ?_, ?_, ?_, ?_⟩
  · decide
  · decide
  · decide
  · decide
  · norm_num [buildRoutePath, buildRoutePathAux, routeLookup, ROUTE_GRAPH, baseRouteNodes,
      stage5Nodes, stage5Node, DESTINATIONS]
  · decide

/-- In a strictly-increasing pair list, the head's abscissa bounds the
last one's. -/
theorem fst_le_getLast :
    ∀ (l : List (ℚ × ℚ)) (p : ℚ × ℚ),
      List.Pairwise (fun a b : ℚ × ℚ => a.1 < b.1) (p :: l) →
      p.1 ≤ ((p :: l).getLast (List.cons_ne_nil _ _)).1 := by
  intro l
  induction l with
  | nil => intro p _; simp
  | cons q rest ih =>
    intro p hp
    rw [List.getLast_cons_cons]
    have hpq : p.1 < q.1 := (List.pairwise_cons.mp hp).1 q (List.mem_cons_self _ _)
    exact le_trans (le_of_lt hpq) (ih q (List.pairwise_cons.mp hp).2)

/-- Past the last breakpoint the torque loop returns the last torque. -/
theorem torqueLoop_last (rpm : ℚ) :
    ∀ (l : List (ℚ × ℚ)) (prev : ℚ × ℚ),
      List.Pairwise (fun a b : ℚ × ℚ => a.1 < b.1) (prev :: l) →
      ((prev :: l).getLast (List.cons_ne_nil _ _)).1 ≤ rpm →
      torqueLoop rpm prev l = ((prev :: l).getLast (List.cons_ne_nil _ _)).2 := by
  intro l
  induction l with
  | nil => intro prev _ _; simp [torqueLoop]
  | cons q rest ih =>
    intro prev hp hr
    rw [List.getLast_cons_cons] at hr ⊢
    have hpq : prev.1 < q.1 := (List.pairwise_cons.mp hp).1 q (List.mem_cons_self _ _)
    have hq : List.Pairwise (fun a b : ℚ × ℚ => a.1 < b.1) (q :: rest) :=
      (List.pairwise_cons.mp hp).2
    simp only [torqueLoop]
    by_cases hc : rpm ≤ q.1
    · cases rest with
      | nil =>
        rw [if_pos hc]
        have hrq : rpm = q.1 :=
          le_antisymm hc (by simpa using hr)
        rw [hrq, div_self (sub_ne_zero.mpr (ne_of_gt hpq))]
        simp
      | cons r rest' =>
        exfalso
        rw [List.getLast_cons_cons] at hr
        have hmem : (r :: rest').getLast (List.cons_ne_nil _ _) ∈ r :: rest' :=
          List.getLast_mem _
        have hlt : q.1 < ((r :: rest').getLast (List.cons_ne_nil _ _)).1 :=
          (List.pairwise_cons.mp hq).1 _ hmem
        linarith
    · rw [if_neg hc]
      exact ih q hq hr

/-- Strictly between two adjacent breakpoints the torque loop linearly
interpolates between them. -/
theorem torqueLoop_middle (rpm r1 t1 r2 t2 : ℚ) (post : List (ℚ × ℚ)) :
    ∀ (pre : List (ℚ × ℚ)) (prev : ℚ × ℚ),
      List.Pairwise (fun a b : ℚ × ℚ => a.1 < b.1)
        (prev :: (pre ++ (r1, t1) :: (r2, t2) :: post)) →
      r1 < rpm → rpm ≤ r2 →
      torqueLoop rpm prev (pre ++ (r1, t1) :: (r2, t2) :: post) =
        t1 + (t2 - t1) * ((rpm - r1) / (r2 - r1)) := by
  intro pre
  induction pre with
  | nil =>
    intro prev _ h1 h2
    simp only [List.nil_append, torqueLoop]
    rw [if_neg (not_le_of_lt h1), if_pos h2]
  | cons q pre' ih =>
    intro prev hp h1 h2
    have hq2 : List.Pairwise (fun a b : ℚ × ℚ => a.1 < b.1)
        (q :: (pre' ++ (r1, t1) :: (r2, t2) :: post)) :=
      (List.pairwise_cons.mp hp).2
    have hqr : q.1 < r1 := by
      have hmem : (r1, t1) ∈ pre' ++ (r1, t1) :: (r2, t2) :: post := by simp
      exact (List.pairwise_cons.mp hq2).1 (r1, t1) hmem
    simp only [List.cons_append, torqueLoop]
    rw [if_neg (not_le_of_lt (lt_trans hqr h1))]
    exact ih q hq2 h1 h2

/-- C4: for a non-empty torque curve with strictly increasing rpm
breakpoints, `torqueAtRpm` flat-extrapolates to the first torque at or
below the first breakpoint and to the last torque at or above the last
breakpoint, linearly interpolates between adjacent breakpoints, and is
exact at every breakpoint. -/
theorem torqueAtRpm_spec (curve : List (ℚ × ℚ)) (hne : curve ≠ [])
    (hs : List.Pairwise (fun p q : ℚ × ℚ => p.1 < q.1) curve) :
    (∀ rpm, rpm ≤ (curve.head hne).1 → torqueAtRpm curve rpm = (curve.head hne).2) ∧
    (∀ rpm, (curve.getLast hne).1 ≤ rpm → torqueAtRpm curve rpm = (curve.getLast hne).2) ∧
    (∀ pre post r1 t1 r2 t2 rpm, curve = pre ++ (r1, t1) :: (r2, t2) :: post →
      r1 < rpm → rpm ≤ r2 →
      torqueAtRpm curve rpm = t1 + (t2 - t1) * ((rpm - r1) / (r2 - r1))) ∧
    (∀ pre post r t, curve = pre ++ (r, t) :: post → torqueAtRpm curve r = t) := by
  have low : ∀ rpm, rpm ≤ (curve.head hne).1 → torqueAtRpm curve rpm = (curve.head hne).2 := by
    intro rpm hr
    cases curve with
    | nil => exact absurd rfl hne
    | cons p rest =>
      simp only [List.head_cons] at hr ⊢
      simp only [torqueAtRpm]
      rw [if_pos hr]
  have high : ∀ rpm, (curve.getLast hne).1 ≤ rpm →
      torqueAtRpm curve rpm = (curve.getLast hne).2 := by
    intro rpm hr
    cases curve with
    | nil => exact absurd rfl hne
    | cons p rest =>
      simp only [torqueAtRpm]
      by_cases hc : rpm ≤ p.1
      · cases rest with
        | nil =>
          rw [if_pos hc]
          simp
        | cons q rest' =>
          exfalso
          have hmem : (q :: rest').getLast (List.cons_ne_nil _ _) ∈ q :: rest' :=
            List.getLast_mem _
          have hlt : p.1 < ((q :: rest').getLast (List.cons_ne_nil _ _)).1 :=
            (List.pairwise_cons.mp hs).1 _ hmem
          rw [List.getLast_cons_cons] at hr
          linarith
      · rw [if_neg hc]
        exact torqueLoop_last rpm rest p hs hr
  have mid : ∀ pre post r1 t1 r2 t2 rpm, curve = pre ++ (r1, t1) :: (r2, t2) :: post →
      r1 < rpm → rpm ≤ r2 →
      torqueAtRpm curve rpm = t1 + (t2 - t1) * ((rpm - r1) / (r2 - r1)) := by
    intro pre post r1 t1 r2 t2 rpm hcurve h1 h2
    subst hcurve
    cases pre with
    | nil =>
      simp only [List.nil_append, torqueAtRpm]
      rw [if_neg (not_le_of_lt h1)]
      simp only [torqueLoop]
      rw [if_pos h2]
    | cons q pre' =>
      simp only [List.cons_append, torqueAtRpm]
      have hq2 : List.Pairwise (fun a b : ℚ × ℚ => a.1 < b.1)
          (q :: (pre' ++ (r1, t1) :: (r2, t2) :: post)) := by
        simpa using hs
      have hqr : q.1 < r1 := by
        have hmem : (r1, t1) ∈ pre' ++ (r1, t1) :: (r2, t2) :: post := by simp
        exact (List.pairwise_cons.mp hq2).1 (r1, t1) hmem
      rw [if_neg (not_le_of_lt (lt_trans hqr h1))]
      exact torqueLoop_middle rpm r1 t1 r2 t2 post pre' q hq2 h1 h2
  refine ⟨low, high, mid, ?_⟩
  intro pre post r t hcurve
  rcases List.eq_nil_or_concat pre with hpre | ⟨pre0, p0, hpre⟩
  · subst hpre
    have hhead : curve.head hne = (r, t) := by
      subst hcurve; rfl
    have h1 : r ≤ (curve.head hne).1 := by rw [hhead]
    rw [low r h1, hhead]
  · subst hpre
    have hassoc : curve = pre0 ++ (p0.1, p0.2) :: (r, t) :: post := by
      rw [hcurve, List.concat_eq_append, List.append_assoc]
      rfl
    have hp0r : p0.1 < r := by
      rw [hassoc] at hs
      have hpair := (List.pairwise_append.mp hs).2.1
      exact (List.pairwise_cons.mp hpair).1 (r, t) (List.mem_cons_self _ _)
    rw [mid pre0 post p0.1 p0.2 r t r hassoc hp0r le_rfl,
      div_self (sub_ne_zero.mpr (ne_of_gt hp0r))]
    ring

/-- Concrete witness for C4: the M3 torque curve below its first
breakpoint. -/
theorem torqueAtRpm_spec_witness :
    carM3.torqueCurve ≠ [] ∧
    List.Pairwise (fun p q : ℚ × ℚ => p.1 < q.1) carM3.torqueCurve ∧
    torqueAtRpm carM3.torqueCurve 500 = 240 :=
  ⟨by decide, by decide,
    (torqueAtRpm_spec carM3.torqueCurve (by decide) (by decide)).1 500 (by decide)⟩

/-- One sampler iteration preserves the distance invariant. -/
theorem sampleStep_good (ops : MathOps) (node : RouteNode) {acc : SampleAcc}
    (h : goodAcc acc) : goodAcc (sampleStep ops node acc) := by
  obtain ⟨hd, ht⟩ := h
  constructor
  · show acc.distances ++ [acc.total + 20] =
      (List.range (acc.distances ++ [acc.total + 20]).length).map
        (fun i : ℕ => (20 : ℚ) * ((i : ℚ) + 1))
    have h20 : acc.total + 20 = (20 : ℚ) * ((acc.distances.length : ℚ) + 1) := by
      rw [ht]; ring
    rw [List.length_append, List.length_singleton, List.range_succ, List.map_append, ← hd,
      List.map_singleton, h20]
  · show acc.total + 20 = 20 * ((acc.distances ++ [acc.total + 20]).length : ℚ)
    rw [List.length_append, List.length_singleton, ht]
    push_cast
    ring

/-- Iterating the sampler body preserves the distance invariant. -/
theorem runSteps_good (ops : MathOps) (node : RouteNode) :
    ∀ (n : ℕ) (acc : SampleAcc), goodAcc acc →
      goodAcc (runSteps (sampleStep ops node) n acc) := by
  intro n
  induction n with
  | zero => intro acc h; exact h
  | succ k ih => intro acc h; exact ih (sampleStep ops node acc) (sampleStep_good ops node h)

/-- Iterating the sampler body adds exactly `20·n` to the running total. -/
theorem runSteps_total (ops : MathOps) (node : RouteNode) :
    ∀ (n : ℕ) (acc : SampleAcc),
      (runSteps (sampleStep ops node) n acc).total = acc.total + 20 * (n : ℚ) := by
  intro n
  induction n with
  | zero => intro acc; simp [runSteps]
  | succ k ih =>
    intro acc
    show (runSteps (sampleStep ops node) k (sampleStep ops node acc)).total = _
    rw [ih (sampleStep ops node acc)]
    simp only [sampleStep]
    push_cast
    ring

/-- The whole sampler fold preserves the distance invariant. -/
theorem foldl_sample_good (ops : MathOps) :
    ∀ (nodes : List RouteNode) (acc : SampleAcc), goodAcc acc →
      goodAcc (nodes.foldl
        (fun a node => runSteps (sampleStep ops node) (sampleSteps node) a) acc) := by
  intro nodes
  induction nodes with
  | nil => intro acc h; exact h
  | cons node rest ih =>
    intro acc h
    exact ih _ (runSteps_good ops node (sampleSteps node) acc h)

/-- The whole sampler fold adds `20·(Σ steps)` to the running total. -/
theorem foldl_sample_total (ops : MathOps) :
    ∀ (nodes : List RouteNode) (acc : SampleAcc),
      (nodes.foldl (fun a node => runSteps (sampleStep ops node) (sampleSteps node) a) acc).total =
        acc.total + 20 * (((nodes.map sampleSteps).sum : ℕ) : ℚ) := by
  intro nodes
  induction nodes with
  | nil => intro acc; simp
  | cons node rest ih =>
    intro acc
    rw [List.foldl_cons, ih, runSteps_total]
    rw [List.map_cons, List.sum_cons]
    push_cast
    ring

/-- Under the invariant, the last recorded distance is the running total. -/
theorem goodAcc_getLastD {acc : SampleAcc} (h : goodAcc acc) :
    acc.distances.getLastD 0 = acc.total := by
  obtain ⟨hd, ht⟩ := h
  rcases hk : acc.distances.length with _ | k
  · rw [List.length_eq_zero] at hk
    rw [hk]
    rw [hk] at ht
    simpa using ht.symm
  · rw [hk] at hd ht
    rw [hd, List.range_succ, List.map_append, List.map_singleton, List.getLastD_concat, ht]
    push_cast
    ring

/-- With nonnegative segment lengths, `20·(Σ steps)` is the claimed sum of
`floor(length/20)·20` over the nodes. -/
theorem sampleSteps_sum_cast :
    ∀ (nodes : List RouteNode), (∀ n ∈ nodes, 0 ≤ n.segment.length) →
      20 * (((nodes.map sampleSteps).sum : ℕ) : ℚ) =
        (nodes.map fun n => ((⌊n.segment.length / 20⌋ : ℤ) : ℚ) * 20).sum := by
  intro nodes
  induction nodes with
  | nil => intro _; simp
  | cons node rest ih =>
    intro hlen
    have hn : 0 ≤ node.segment.length := hlen node (List.mem_cons_self _ _)
    have hfl : 0 ≤ ⌊node.segment.length / 20⌋ :=
      Int.floor_nonneg.mpr (div_nonneg hn (by norm_num))
    have hcast : ((sampleSteps node : ℕ) : ℚ) = ((⌊node.segment.length / 20⌋ : ℤ) : ℚ) := by
      unfold sampleSteps
      exact_mod_cast congrArg (fun i : ℤ => (i : ℚ)) (Int.toNat_of_nonneg hfl)
    rw [List.map_cons, List.sum_cons, List.map_cons, List.sum_cons,
      ← ih (fun m hm => hlen m (List.mem_cons_of_mem _ hm))]
    push_cast
    rw [hcast]
    ring

/-- C6: for every `MathOps` and every node list with nonnegative segment
lengths, the sampler's `distances` sequence is exactly `20, 40, 60, ...`
(each entry exceeds its predecessor by 20, starting at 20), and the final
distance equals the sum of `floor(segmentLength/20)·20` over the input
nodes (a segment shorter than 20 m contributes no samples). -/
theorem buildRouteSamples_spec (ops : MathOps) (nodes : List RouteNode)
    (hlen : ∀ n ∈ nodes, 0 ≤ n.segment.length) :
    (buildRouteSamples ops nodes).distances =
      (List.range (buildRouteSamples ops nodes).distances.length).map
        (fun i : ℕ => (20 : ℚ) * ((i : ℚ) + 1)) ∧
    (buildRouteSamples ops nodes).distances.getLastD 0 =
      (nodes.map fun n => ((⌊n.segment.length / 20⌋ : ℤ) : ℚ) * 20).sum := by
  have hinit : goodAcc
      { x := 0, y := 0, z := 0, heading := 0, total := 0,
        points := [], widths := [], terrains := [], distances := [] } := by
    constructor <;> simp
  have hgood := foldl_sample_good ops nodes _ hinit
  have htotal := foldl_sample_total ops nodes
    { x := 0, y := 0, z := 0, heading := 0, total := 0,
      points := [], widths := [], terrains := [], distances := [] }
  constructor
  · exact hgood.1
  · show (nodes.foldl
        (fun a node => runSteps (sampleStep ops node) (sampleSteps node) a)
        { x := 0, y := 0, z := 0, heading := 0, total := 0,
          points := [], widths := [], terrains := [], distances := [] }).distances.getLastD 0 = _
    rw [goodAcc_getLastD hgood, htotal, ← sampleSteps_sum_cast nodes hlen]
    ring

/-- Concrete witness for C6: a 50 m segment and a 10 m segment give final
distance `40 = floor(50/20)·20 + floor(10/20)·20`. -/
theorem buildRouteSamples_spec_witness :
    (∀ n ∈ wNodes, 0 ≤ n.segment.length) ∧
    (buildRouteSamples zeroOps wNodes).distances.getLastD 0 =
      (wNodes.map fun n => ((⌊n.segment.length / 20⌋ : ℤ) : ℚ) * 20).sum :=
  ⟨by decide, (buildRouteSamples_spec zeroOps wNodes (by decide)).2⟩

/-- C7: `pressureGripFactor(33) = 1` exactly; for every psi it equals
`1 - 0.012 * min(6, |psi - 33|)`, hence `pressureGripFactor(39) =
pressureGripFactor(27) = 0.928`, and every psi outside `[27, 39]` also
yields `0.928`. -/
theorem pressureGripFactor_spec :
    (∀ psi : ℚ, pressureGripFactor psi = 1 - 0.012 * min 6 |psi - 33|) ∧
    pressureGripFactor 33 = 1 ∧
    pressureGripFactor 39 = 0.928 ∧
    pressureGripFactor 27 = 0.928 ∧
    (∀ psi : ℚ, psi < 27 ∨ 39 < psi → pressureGripFactor psi = 0.928) := by
  have clamp_abs : ∀ x : ℚ, |min 6 (max (-6) x)| = min 6 |x| := by
    intro x
    rcases le_total x (-6) with h | h
    · rw [max_eq_left h, min_eq_right (show (-6:ℚ) ≤ 6 by norm_num),
        abs_of_nonpos (show x ≤ 0 by linarith),
        min_eq_left (show (6:ℚ) ≤ -x by linarith),
        abs_of_nonpos (show (-6:ℚ) ≤ 0 by norm_num)]
      norm_num
    · rw [max_eq_right h]
      rcases le_total x 0 with h0 | h0
      · rw [min_eq_right (show x ≤ (6:ℚ) by linarith),
          abs_of_nonpos h0, min_eq_right (show -x ≤ (6:ℚ) by linarith)]
      · rcases le_total x 6 with h6 | h6
        · rw [abs_of_nonneg h0, min_eq_right h6]
          exact abs_of_nonneg h0
        · rw [abs_of_nonneg h0, min_eq_left h6]
          exact abs_of_nonneg (by norm_num)
  have key : ∀ psi : ℚ, pressureGripFactor psi = 1 - 0.012 * min 6 |psi - 33| := by
    intro psi
    simp only [pressureGripFactor]
    rw [jabs_eq_abs, jmin_eq_min, jmax_eq_max, clamp_abs]
    ring
  refine ⟨key, by norm_num [pressureGripFactor, jmin, jmax, jabs],
    by norm_num [pressureGripFactor, jmin, jmax, jabs],
    by norm_num [pressureGripFactor, jmin, jmax, jabs], ?_⟩
  intro psi h
  rw [key]
  have h6 : (6 : ℚ) ≤ |psi - 33| := by
    rcases h with h | h
    · rw [abs_of_nonpos (by linarith)]; linarith
    · rw [abs_of_nonneg (by linarith)]; linarith
  rw [min_eq_left h6]
  norm_num

/-- Witness for C7 at a concrete out-of-range pressure. -/
theorem pressureGripFactor_spec_witness :
    ((20 : ℚ) < 27 ∨ (39 : ℚ) < 20) ∧ pressureGripFactor 20 = 0.928 :=
  ⟨Or.inl (by norm_num), pressureGripFactor_spec.2.2.2.2 20 (Or.inl (by norm_num))⟩
